import Mathlib

/-!
Shallow embedding of the Robo AI Video Intro Creator core
(services/geminiService.ts: dataUrlToMimeAndBase64, generateVideo)
and of the UI generate handler (App: handleGenerate), with theorems
settling the specification claims.

Strings are modelled as Lean `String`; JavaScript `undefined` results
are modelled with `Option`.  External collaborators (the GoogleGenAI
client, the `fetch` function, `setTimeout`, the progress callback) are
modelled as oracle parameters, and the observable interactions of one
call are recorded as an event trace.
-/

namespace RoboVideo

/-- Line terminators that the JavaScript regex metacharacter `.` does not
match (without the `s` flag): LF, CR, LINE SEPARATOR, PARAGRAPH SEPARATOR. -/
def isLineTerm (c : Char) : Bool :=
  c = '\n' || c = '\r' || c = Char.ofNat 0x2028 || c = Char.ofNat 0x2029

/-- Attempt of the lazy part `(.*?);` of the regex `/:(.*?);/` at a fixed
start position: the capture runs to the first following `;`, and fails if a
line terminator (not matched by `.`) occurs before any `;`. -/
def lazyCapture : List Char → Option (List Char)
  | [] => none
  | c :: rest =>
    if c = ';' then some []
    else if isLineTerm c then none
    else (lazyCapture rest).map (fun cap => c :: cap)

/-- JavaScript `header.match(/:(.*?);/)?.[1]`: the regex engine scans start
positions left to right; at each `:` it tries the lazy body, and the first
start position where the body succeeds yields the capture group. -/
def matchColonCapture : List Char → Option (List Char)
  | [] => none
  | c :: rest =>
    if c = ':' then
      match lazyCapture rest with
      | some cap => some cap
      | none => matchColonCapture rest
    else matchColonCapture rest

/-- JavaScript `s.split(',')` on the character list: splits at every comma;
the empty string splits to `[""]`. -/
def splitComma : List Char → List (List Char)
  | [] => [[]]
  | c :: rest =>
    if c = ',' then [] :: splitComma rest
    else
      match splitComma rest with
      | [] => [[c]]
      | s :: ss => (c :: s) :: ss

/-- List-level core of `dataUrlToMimeAndBase64`:
`const [header, base64] = dataUrl.split(',')` — `header` is the first
segment, `base64` the second (or `undefined`, modelled as `none`);
`const mimeType = header.match(/:(.*?);/)?.[1] ?? 'application/octet-stream'`. -/
def decodeDataUrl (l : List Char) : List Char × Option (List Char) :=
  let parts := splitComma l
  let header := parts.headD []
  let base64 := parts.get? 1
  let mimeType :=
    match matchColonCapture header with
    | some cap => cap
    | none => "application/octet-stream".data
  (mimeType, base64)

/-- Embedding of `dataUrlToMimeAndBase64` (services/geminiService.ts),
as a function on strings. -/
def dataUrlToMimeAndBase64 (dataUrl : String) : String × Option String :=
  let r := decodeDataUrl dataUrl.data
  (String.mk r.1, r.2.map String.mk)

/-! ## The video generation operation and its external collaborators -/

/-- `video.uri` of a generated video: the download reference (may be absent). -/
structure VideoRef where
  uri : Option String
deriving DecidableEq

/-- One entry of `response.generatedVideos`. -/
structure GeneratedVideo where
  video : Option VideoRef
deriving DecidableEq

/-- `operation.response`: may lack the `generatedVideos` array. -/
structure VideosResponse where
  generatedVideos : Option (List GeneratedVideo)
deriving DecidableEq

/-- The job descriptor returned by `ai.models.generateVideos` and
`ai.operations.getVideosOperation`: a `done` flag plus an optional response. -/
structure Operation where
  done : Bool
  response : Option VideosResponse
deriving DecidableEq

/-- The request object built by `generateVideo` and passed to
`ai.models.generateVideos`.  `imageBytes` is the decoded base64 payload,
which JavaScript destructuring can leave `undefined`. -/
structure VideoRequest where
  model : String
  prompt : String
  imageBytes : Option String
  mimeType : String
  numberOfVideos : Nat
  resolution : String
  aspectRatio : String
deriving DecidableEq

/-- The host environment at the moment of one invocation: the current value
of `process.env.API_KEY`. -/
structure Env where
  apiKey : String
deriving DecidableEq

/-- Oracle for the GoogleGenAI client: `generateVideos` submits a request and
returns the initial operation; `getVideosOperation i op` is the service
answer to the `i`-th poll (0-based), given the operation object the code
passes back.  Indexing polls by `i` models the remote service advancing
between polls. -/
structure GenAIService where
  generateVideos : VideoRequest → Operation
  getVideosOperation : Nat → Operation → Operation

/-- Oracle result for `fetch`: `ok`, `statusText`, and the body bytes
(`videoResponse.blob()`). -/
structure FetchResponse where
  ok : Bool
  statusText : String
  blobBytes : List Nat
deriving DecidableEq

/-- The locally addressable result: `URL.createObjectURL(videoBlob)` wrapping
the downloaded bytes. -/
structure LocalVideoHandle where
  blobBytes : List Nat
deriving DecidableEq

/-- The two failures `generateVideo` can throw itself:
`missingAsset` is `new Error('Video generation failed: No download link found.')`;
`download st` is `new Error('Failed to download video: ' + st)`. -/
inductive GenError where
  | missingAsset : GenError
  | download (statusText : String) : GenError
deriving DecidableEq

instance {ε α : Type} [DecidableEq ε] [DecidableEq α] : DecidableEq (Except ε α) :=
  fun x y =>
    match x, y with
    | Except.ok a, Except.ok b => decidable_of_iff (a = b) (by simp)
    | Except.error a, Except.error b => decidable_of_iff (a = b) (by simp)
    | Except.ok _, Except.error _ => isFalse (fun hc => by cases hc)
    | Except.error _, Except.ok _ => isFalse (fun hc => by cases hc)

/-- Observable interactions of one `generateVideo` call, in order:
progress callback invocations, `setTimeout` suspensions, the job
submission (with the API key the client was built with), each
`getVideosOperation` call (with the operation object passed back), and
each `fetch` (with the full URL). -/
inductive Event where
  | progress (message : String) : Event
  | sleep (ms : Nat) : Event
  | submit (apiKey : String) (req : VideoRequest) : Event
  | pollReq (op : Operation) : Event
  | fetchReq (url : String) : Event
deriving DecidableEq

/-- The progress message of the `c`-th status check. -/
def checkMsg (c : Nat) : String :=
  "Video generation in progress... (check #" ++ toString c ++ ")"

/-- The polling loop `while (!operation.done) { pollCount++; onProgress(...);
await sleep(10000); operation = await ai.operations.getVideosOperation({operation}) }`,
with explicit fuel: result `none` means the loop did not terminate within
`fuel` iterations.  `count` is the current value of `pollCount`. -/
def runPoll (poll : Nat → Operation → Operation) :
    Nat → Nat → Operation → List Event × Option Operation
  | 0, _, op => if op.done then ([], some op) else ([], none)
  | fuel + 1, count, op =>
    if op.done then ([], some op)
    else
      let r := runPoll poll fuel (count + 1) (poll count op)
      (Event.progress (checkMsg (count + 1)) :: Event.sleep 10000 ::
        Event.pollReq op :: r.1, r.2)

/-- `operation.response?.generatedVideos?.[0]?.video?.uri`. -/
def extractLink (op : Operation) : Option String :=
  op.response.bind fun r =>
    (r.generatedVideos.bind fun gs => gs.head?).bind fun g =>
      g.video.bind fun v => v.uri

/-- The request object literal of the `ai.models.generateVideos` call. -/
def mkRequest (prompt imageDataUrl aspectRatio : String) : VideoRequest :=
  let m := dataUrlToMimeAndBase64 imageDataUrl
  { model := "veo-3.1-fast-generate-preview"
    prompt := prompt
    imageBytes := m.2
    mimeType := m.1
    numberOfVideos := 1
    resolution := "720p"
    aspectRatio := aspectRatio }

/-- The tail of `generateVideo` after the loop exits with operation `opF`:
extract the download link (`if (!downloadLink) throw`, where both
`undefined` and the empty string are falsy), fetch
`downloadLink + '&key=' + process.env.API_KEY`, check `videoResponse.ok`,
and wrap the blob. -/
def finish (env : Env) (fetch : String → FetchResponse) (opF : Operation) :
    List Event × Except GenError LocalVideoHandle :=
  match extractLink opF with
  | none => ([], Except.error GenError.missingAsset)
  | some link =>
    if link = "" then ([], Except.error GenError.missingAsset)
    else
      let url := link ++ "&key=" ++ env.apiKey
      let resp := fetch url
      if resp.ok then
        ([Event.fetchReq url], Except.ok { blobBytes := resp.blobBytes })
      else
        ([Event.fetchReq url], Except.error (GenError.download resp.statusText))

/-- Embedding of `generateVideo` (services/geminiService.ts): returns the
event trace of the call and `none` when the polling loop exceeds `fuel`,
otherwise `some` of the thrown error or the returned handle. -/
def generateVideo (fuel : Nat) (env : Env) (ai : GenAIService)
    (fetch : String → FetchResponse)
    (prompt imageDataUrl aspectRatio : String) :
    List Event × Option (Except GenError LocalVideoHandle) :=
  let req := mkRequest prompt imageDataUrl aspectRatio
  let op0 := ai.generateVideos req
  let pre : List Event :=
    [Event.progress "Sending request to the AI...",
     Event.submit env.apiKey req,
     Event.progress "AI is warming up its creative engines..."]
  let pr := runPoll ai.getVideosOperation fuel 0 op0
  match pr.2 with
  | none => (pre ++ pr.1, none)
  | some opF =>
    let fin := finish env fetch opF
    (pre ++ pr.1 ++
      (Event.progress "Video generation complete! Downloading..." :: fin.1),
     some fin.2)

/-! ## Trace observations -/

/-- The sequence of messages passed to the progress callback. -/
def progressMsgs (t : List Event) : List String :=
  t.filterMap fun e =>
    match e with
    | Event.progress m => some m
    | _ => none

/-- Recognizes a `setTimeout` suspension event. -/
def isSleep : Event → Bool
  | Event.sleep _ => true
  | _ => false

/-- The API keys carried by submission events. -/
def submitKeys (t : List Event) : List String :=
  t.filterMap fun e =>
    match e with
    | Event.submit k _ => some k
    | _ => none

/-- The URLs passed to `fetch`. -/
def fetchUrls (t : List Event) : List String :=
  t.filterMap fun e =>
    match e with
    | Event.fetchReq u => some u
    | _ => none

/-- The operation objects passed back to `getVideosOperation`. -/
def pollReqOps (t : List Event) : List Operation :=
  t.filterMap fun e =>
    match e with
    | Event.pollReq op => some op
    | _ => none

/-- The operation the service reports after `n` polls: `opSeq poll op0 0` is
the submission result, and each poll maps `op_i` to `op_{i+1}`. -/
def opSeq (poll : Nat → Operation → Operation) (op0 : Operation) : Nat → Operation
  | 0 => op0
  | n + 1 => poll n (opSeq poll op0 n)

/-- The event trace the polling loop produces for `n` Pending cycles when the
current `pollCount` is `c`. -/
def pollTrace (poll : Nat → Operation → Operation) (op0 : Operation) :
    Nat → Nat → List Event
  | _, 0 => []
  | c, n + 1 =>
    Event.progress (checkMsg (c + 1)) :: Event.sleep 10000 ::
      Event.pollReq (opSeq poll op0 c) :: pollTrace poll op0 (c + 1) n

/-! ## Lemmas about the data-URL decoder -/

theorem splitComma_no_comma : ∀ l : List Char, ',' ∉ l → splitComma l = [l]
  | [], _ => rfl
  | c :: rest, h => by
    have hc : ¬(c = ',') := fun hc => h (hc ▸ List.mem_cons_self c rest)
    have ih := splitComma_no_comma rest (fun hm => h (List.mem_cons_of_mem c hm))
    simp [splitComma, hc, ih]

theorem splitComma_append : ∀ l r : List Char, ',' ∉ l →
    splitComma (l ++ ',' :: r) = l :: splitComma r
  | [], r, _ => by simp [splitComma]
  | c :: rest, r, h => by
    have hc : ¬(c = ',') := fun hc => h (hc ▸ List.mem_cons_self c rest)
    have ih := splitComma_append rest r (fun hm => h (List.mem_cons_of_mem c hm))
    simp [splitComma, hc, ih]

theorem lazyCapture_append : ∀ l r : List Char, ';' ∉ l →
    (∀ c ∈ l, isLineTerm c = false) →
    lazyCapture (l ++ ';' :: r) = some l
  | [], r, _, _ => by simp [lazyCapture]
  | c :: rest, r, h1, h2 => by
    have hc : ¬(c = ';') := fun hc => h1 (hc ▸ List.mem_cons_self c rest)
    have hl : isLineTerm c = false := h2 c (List.mem_cons_self c rest)
    have ih := lazyCapture_append rest r
      (fun hm => h1 (List.mem_cons_of_mem c hm))
      (fun d hd => h2 d (List.mem_cons_of_mem c hd))
    simp [lazyCapture, hc, hl, ih]

theorem matchColonCapture_data_header (mime r : List Char)
    (h1 : ';' ∉ mime) (h2 : ∀ c ∈ mime, isLineTerm c = false) :
    matchColonCapture ("data:".data ++ mime ++ ';' :: r) = some mime := by
  show matchColonCapture ('d' :: 'a' :: 't' :: 'a' :: ':' :: (mime ++ ';' :: r))
      = some mime
  have hcap := lazyCapture_append mime r h1 h2
  simp [matchColonCapture, hcap]

theorem splitComma_head : ∀ l : List Char,
    (splitComma l).head? = some (l.takeWhile (fun c => c != ','))
  | [] => rfl
  | c :: rest => by
    by_cases hc : c = ','
    · subst hc; simp [splitComma, List.takeWhile_cons]
    · have ih := splitComma_head rest
      cases hsp : splitComma rest with
      | nil => rw [hsp] at ih; simp at ih
      | cons s ss =>
        rw [hsp] at ih
        simp at ih
        simp [splitComma, hc, hsp, List.takeWhile_cons, ih]

theorem takeWhile_of_no_comma : ∀ l : List Char, ',' ∉ l →
    l.takeWhile (fun c => c != ',') = l
  | [], _ => rfl
  | c :: rest, h => by
    have hc : ¬(c = ',') := fun hc => h (hc ▸ List.mem_cons_self c rest)
    have ih := takeWhile_of_no_comma rest (fun hm => h (List.mem_cons_of_mem c hm))
    simp [List.takeWhile_cons, hc, ih]

theorem decodeDataUrl_split (header rest : List Char) (hnc : ',' ∉ header) :
    decodeDataUrl (header ++ ',' :: rest) =
      ((matchColonCapture header).getD "application/octet-stream".data,
       some (rest.takeWhile (fun c => c != ','))) := by
  unfold decodeDataUrl
  rw [splitComma_append _ _ hnc]
  have hh := splitComma_head rest
  cases hsp : splitComma rest with
  | nil => rw [hsp] at hh; simp at hh
  | cons s ss =>
    rw [hsp] at hh
    simp at hh
    simp [hh]
    cases hmc : matchColonCapture header <;> simp [hmc]

theorem decodeDataUrl_no_comma (l : List Char) (h : ',' ∉ l) :
    decodeDataUrl l =
      ((matchColonCapture l).getD "application/octet-stream".data, none) := by
  unfold decodeDataUrl
  rw [splitComma_no_comma l h]
  cases hmc : matchColonCapture l <;> simp [hmc]

theorem dataUrl_eq (s : String) :
    dataUrlToMimeAndBase64 s
      = (String.mk (decodeDataUrl s.data).1,
         (decodeDataUrl s.data).2.map String.mk) := rfl

/-- Claim C1 (amended).  For every input of the form
`data:<mime>;base64,<payload>` in which `<mime>` contains no semicolon,
comma or line terminator and `<payload>` contains no comma, decoding returns
exactly the pair of `<mime>` and `<payload>`; and for every input containing
a comma whose header segment (the part before the first comma) lacks a
recognizable `type:subtype;` pattern, the returned mimeType is
`application/octet-stream` while the returned payload is the part of the
input between the first comma and the following comma (hence everything
after the first comma when no second comma exists). -/
theorem claim_C1 :
    (∀ mime payload : String,
        ';' ∉ mime.data → ',' ∉ mime.data →
        (∀ c ∈ mime.data, isLineTerm c = false) →
        ',' ∉ payload.data →
        dataUrlToMimeAndBase64 ("data:" ++ mime ++ ";base64," ++ payload)
          = (mime, some payload)) ∧
    (∀ (s : String) (header rest : List Char),
        s.data = header ++ ',' :: rest →
        ',' ∉ header →
        matchColonCapture header = none →
        dataUrlToMimeAndBase64 s
          = ("application/octet-stream",
             some (String.mk (rest.takeWhile (fun c => c != ','))))) := by
  constructor
  · intro mime payload h1 h2 h3 h4
    have hsb : (";base64," : String).data = ";base64".data ++ [','] := by decide
    have hdata : ("data:" ++ mime ++ ";base64," ++ payload).data
        = ("data:".data ++ mime.data ++ ";base64".data) ++ ',' :: payload.data := by
      simp [String.data_append, hsb, List.append_assoc]
    have hnc : ',' ∉ ("data:".data ++ mime.data ++ ";base64".data) := by
      intro hm
      rcases List.mem_append.1 hm with hm | hm
      · rcases List.mem_append.1 hm with hm | hm
        · exact absurd hm (by decide)
        · exact h2 hm
      · exact absurd hm (by decide)
    have hsb2 : (";base64" : String).data = ';' :: "base64".data := by decide
    have hmc : matchColonCapture ("data:".data ++ mime.data ++ ";base64".data)
        = some mime.data := by
      rw [hsb2]
      exact matchColonCapture_data_header mime.data "base64".data h1 h3
    rw [dataUrl_eq, hdata]
    rw [decodeDataUrl_split _ _ hnc]
    rw [hmc, takeWhile_of_no_comma payload.data h4]
    rfl
  · intro s header rest hs hnc hm
    rw [dataUrl_eq, hs, decodeDataUrl_split _ _ hnc]
    simp [hm]

/-- Claim C1, counterexample to the claim as stated: the input
`data:image/png;base64,AA,BB` is of the form `data:<mime>;base64,<payload>`
with payload `AA,BB` (everything after the first comma is also `AA,BB`),
yet decoding returns payload `AA`, not `AA,BB`. -/
theorem claim_C1_counterexample :
    (dataUrlToMimeAndBase64 "data:image/png;base64,AA,BB").1 = "image/png" ∧
    (dataUrlToMimeAndBase64 "data:image/png;base64,AA,BB").2 = some "AA" ∧
    (dataUrlToMimeAndBase64 "data:image/png;base64,AA,BB").2 ≠ some "AA,BB" := by
  refine ⟨by decide, by decide, by decide⟩

/-- Claim C1, witness: both parts of the amended claim applied at concrete
inputs. -/
theorem claim_C1_witness :
    dataUrlToMimeAndBase64 ("data:" ++ "image/png" ++ ";base64," ++ "AAAA")
      = ("image/png", some "AAAA") ∧
    dataUrlToMimeAndBase64 "nopattern,PAYLOAD"
      = ("application/octet-stream",
         some (String.mk ("PAYLOAD".data.takeWhile (fun c => c != ',')))) :=
  ⟨claim_C1.1 "image/png" "AAAA" (by decide) (by decide) (by decide) (by decide),
   claim_C1.2 "nopattern,PAYLOAD" "nopattern".data "PAYLOAD".data
     (by decide) (by decide) (by decide)⟩

/-- Claim C9: for every input containing no comma, decoding still returns,
with the payload component absent (`none`, the JavaScript `undefined`)
rather than the input or the empty string, while the mimeType is still
extracted from the whole input by the header pattern, defaulting to
`application/octet-stream`. -/
theorem claim_C9 (s : String) (h : ',' ∉ s.data) :
    (dataUrlToMimeAndBase64 s).2 = none ∧
    (dataUrlToMimeAndBase64 s).1
      = String.mk ((matchColonCapture s.data).getD
          "application/octet-stream".data) := by
  rw [dataUrl_eq, decodeDataUrl_no_comma s.data h]
  exact ⟨rfl, rfl⟩

/-- Claim C9, witness: the claim applied at the comma-free input
`data:image/png;base64`. -/
theorem claim_C9_witness :
    (dataUrlToMimeAndBase64 "data:image/png;base64").2 = none ∧
    (dataUrlToMimeAndBase64 "data:image/png;base64").1
      = String.mk ((matchColonCapture "data:image/png;base64".data).getD
          "application/octet-stream".data) :=
  claim_C9 "data:image/png;base64" (by decide)

/-! ## Lemmas about the polling loop and the completion tail -/

theorem runPoll_done (poll : Nat → Operation → Operation)
    (fuel count : Nat) (op : Operation) (h : op.done = true) :
    runPoll poll fuel count op = ([], some op) := by
  cases fuel <;> simp [runPoll, h]

theorem runPoll_pending (poll : Nat → Operation → Operation)
    (fuel c : Nat) (op : Operation) (h : op.done = false) :
    runPoll poll (fuel + 1) c op
      = (Event.progress (checkMsg (c + 1)) :: Event.sleep 10000 ::
          Event.pollReq op :: (runPoll poll fuel (c + 1) (poll c op)).1,
         (runPoll poll fuel (c + 1) (poll c op)).2) := by
  simp [runPoll, h]

theorem runPoll_opSeq (poll : Nat → Operation → Operation) (op0 : Operation) :
    ∀ (N c fuel : Nat),
    (∀ i, i < N → (opSeq poll op0 (c + i)).done = false) →
    (opSeq poll op0 (c + N)).done = true →
    N ≤ fuel →
    runPoll poll fuel c (opSeq poll op0 c)
      = (pollTrace poll op0 c N, some (opSeq poll op0 (c + N))) := by
  intro N
  induction N with
  | zero =>
    intro c fuel hpend hdone hfuel
    rw [Nat.add_zero] at hdone
    rw [runPoll_done poll fuel c _ hdone]
    simp [pollTrace]
  | succ N ih =>
    intro c fuel hpend hdone hfuel
    have h0 : (opSeq poll op0 c).done = false := by
      have := hpend 0 (Nat.succ_pos N)
      rwa [Nat.add_zero] at this
    cases fuel with
    | zero => exact absurd hfuel (by omega)
    | succ f =>
      have hrec := ih (c + 1) f
        (fun i hi => by
          have := hpend (i + 1) (by omega)
          rwa [show c + (i + 1) = c + 1 + i by omega] at this)
        (by rwa [show c + 1 + N = c + (N + 1) by omega])
        (by omega)
      rw [runPoll_pending poll f c _ h0]
      rw [show poll c (opSeq poll op0 c) = opSeq poll op0 (c + 1) from rfl]
      rw [hrec]
      simp only [pollTrace]
      rw [show c + 1 + N = c + (N + 1) by omega]

theorem runPoll_submitKeys (poll : Nat → Operation → Operation) :
    ∀ (fuel c : Nat) (op : Operation),
    submitKeys (runPoll poll fuel c op).1 = []
  | 0, c, op => by by_cases h : op.done <;> simp [runPoll, h, submitKeys]
  | fuel + 1, c, op => by
    have ih := runPoll_submitKeys poll fuel (c + 1) (poll c op)
    by_cases h : op.done <;>
      simp [runPoll, h, submitKeys] <;>
      simpa [submitKeys] using ih

theorem runPoll_fetchUrls (poll : Nat → Operation → Operation) :
    ∀ (fuel c : Nat) (op : Operation),
    fetchUrls (runPoll poll fuel c op).1 = []
  | 0, c, op => by by_cases h : op.done <;> simp [runPoll, h, fetchUrls]
  | fuel + 1, c, op => by
    have ih := runPoll_fetchUrls poll fuel (c + 1) (poll c op)
    by_cases h : op.done <;>
      simp [runPoll, h, fetchUrls] <;>
      simpa [fetchUrls] using ih

theorem pollTrace_progressMsgs (poll : Nat → Operation → Operation)
    (op0 : Operation) :
    ∀ (N c : Nat),
    progressMsgs (pollTrace poll op0 c N)
      = (List.range N).map (fun i => checkMsg (c + i + 1))
  | 0, c => by simp [pollTrace, progressMsgs]
  | N + 1, c => by
    have ih := pollTrace_progressMsgs poll op0 N (c + 1)
    rw [List.range_succ_eq_map]
    simp only [pollTrace, progressMsgs, List.filterMap_cons, List.map_cons,
      List.map_map] at ih ⊢
    rw [ih]
    refine congrArg₂ List.cons (by simp) ?_
    exact List.map_congr_left fun a _ => congrArg checkMsg (by omega)

theorem pollTrace_pollReqOps (poll : Nat → Operation → Operation)
    (op0 : Operation) :
    ∀ (N c : Nat),
    pollReqOps (pollTrace poll op0 c N)
      = (List.range N).map (fun i => opSeq poll op0 (c + i))
  | 0, c => by simp [pollTrace, pollReqOps]
  | N + 1, c => by
    have ih := pollTrace_pollReqOps poll op0 N (c + 1)
    rw [List.range_succ_eq_map]
    simp only [pollTrace, pollReqOps, List.filterMap_cons, List.map_cons,
      List.map_map] at ih ⊢
    rw [ih]
    refine congrArg₂ List.cons (by simp) ?_
    exact List.map_congr_left fun a _ =>
      congrArg (opSeq poll op0) (by omega)

theorem pollTrace_sleeps (poll : Nat → Operation → Operation)
    (op0 : Operation) :
    ∀ (N c : Nat),
    (pollTrace poll op0 c N).filter isSleep
      = List.replicate N (Event.sleep 10000)
  | 0, c => by simp [pollTrace]
  | N + 1, c => by
    have ih := pollTrace_sleeps poll op0 N (c + 1)
    simp [pollTrace, isSleep, ih, List.replicate_succ]

theorem pollTrace_submitKeys (poll : Nat → Operation → Operation)
    (op0 : Operation) :
    ∀ (N c : Nat), submitKeys (pollTrace poll op0 c N) = []
  | 0, c => by simp [pollTrace, submitKeys]
  | N + 1, c => by
    have ih := pollTrace_submitKeys poll op0 N (c + 1)
    simp [pollTrace, submitKeys] at ih ⊢
    exact ih

theorem finish_progressMsgs (env : Env) (fetch : String → FetchResponse)
    (opF : Operation) : progressMsgs (finish env fetch opF).1 = [] := by
  unfold finish
  cases extractLink opF with
  | none => simp [progressMsgs]
  | some link =>
    by_cases h : link = "" <;> simp [h, progressMsgs] <;> split <;> simp [progressMsgs]

theorem finish_sleeps (env : Env) (fetch : String → FetchResponse)
    (opF : Operation) : (finish env fetch opF).1.filter isSleep = [] := by
  unfold finish
  cases extractLink opF with
  | none => simp
  | some link =>
    by_cases h : link = "" <;> simp [h, isSleep] <;> split <;> simp [isSleep]

theorem finish_pollReqOps (env : Env) (fetch : String → FetchResponse)
    (opF : Operation) : pollReqOps (finish env fetch opF).1 = [] := by
  unfold finish
  cases extractLink opF with
  | none => simp [pollReqOps]
  | some link =>
    by_cases h : link = "" <;> simp [h, pollReqOps] <;> split <;> simp [pollReqOps]

theorem finish_submitKeys (env : Env) (fetch : String → FetchResponse)
    (opF : Operation) : submitKeys (finish env fetch opF).1 = [] := by
  unfold finish
  cases extractLink opF with
  | none => simp [submitKeys]
  | some link =>
    by_cases h : link = "" <;> simp [h, submitKeys] <;> split <;> simp [submitKeys]

theorem generateVideo_of_pollSome (fuel : Nat) (env : Env) (ai : GenAIService)
    (fetch : String → FetchResponse)
    (prompt imageDataUrl aspectRatio : String) (opF : Operation)
    (h : (runPoll ai.getVideosOperation fuel 0
        (ai.generateVideos (mkRequest prompt imageDataUrl aspectRatio))).2
      = some opF) :
    generateVideo fuel env ai fetch prompt imageDataUrl aspectRatio
      = ([Event.progress "Sending request to the AI...",
          Event.submit env.apiKey (mkRequest prompt imageDataUrl aspectRatio),
          Event.progress "AI is warming up its creative engines..."]
          ++ (runPoll ai.getVideosOperation fuel 0
              (ai.generateVideos (mkRequest prompt imageDataUrl aspectRatio))).1
          ++ (Event.progress "Video generation complete! Downloading..."
              :: (finish env fetch opF).1),
         some (finish env fetch opF).2) := by
  simp only [generateVideo]
  rw [h]

theorem generateVideo_submitKeys (fuel : Nat) (env : Env) (ai : GenAIService)
    (fetch : String → FetchResponse) (prompt imageDataUrl aspectRatio : String) :
    submitKeys (generateVideo fuel env ai fetch prompt imageDataUrl aspectRatio).1
      = [env.apiKey] := by
  have h1 := runPoll_submitKeys ai.getVideosOperation fuel 0
    (ai.generateVideos (mkRequest prompt imageDataUrl aspectRatio))
  unfold generateVideo
  cases hm : (runPoll ai.getVideosOperation fuel 0
      (ai.generateVideos (mkRequest prompt imageDataUrl aspectRatio))).2 with
  | none =>
    simp only [submitKeys, List.filterMap_append, List.filterMap_cons] at h1 ⊢
    simp [hm, h1]
  | some opF =>
    have h2 := finish_submitKeys env fetch opF
    simp only [submitKeys, List.filterMap_append, List.filterMap_cons] at h1 h2 ⊢
    simp [hm, h1, h2]

/-! ## Mock collaborators for concrete scenarios -/

/-- A Done operation carrying one generated video with the given uri. -/
def mockDoneOp (u : Option String) : Operation :=
  { done := true
    response := some { generatedVideos := some [{ video := some { uri := u } }] } }

/-- A service that reports Done immediately with the given uri; polls echo
the operation back. -/
def mockDoneAI (u : Option String) : GenAIService :=
  { generateVideos := fun _ => mockDoneOp u
    getVideosOperation := fun _ op => op }

/-- A fetch that returns 200 with bytes `[1,2,3]` for the expected download
URL and a failure for anything else. -/
def mockFetchOK : String → FetchResponse := fun url =>
  if url = "https://example/video123&key=cred" then
    { ok := true, statusText := "OK", blobBytes := [1, 2, 3] }
  else
    { ok := false, statusText := "Not Found", blobBytes := [] }

/-- A service that stays Pending for the first two status reads (the
submission result and the first poll) and is Done from the second poll on. -/
def mockPendingAI : GenAIService :=
  { generateVideos := fun _ => { done := false, response := none }
    getVideosOperation := fun i _ =>
      if i = 0 then { done := false, response := none }
      else mockDoneOp (some "https://example/video123") }

/-! ## Claims about generateVideo -/

/-- Claim C2 (amended).  In the concrete scenario — prompt "A dog running on
a beach", seed image `data:image/png;base64,AAAA`, aspect ratio 16:9, the
service Done immediately with uri `https://example/video123`, fetch of
`https://example/video123&key=cred` succeeding with bytes `[1,2,3]` — the
call returns a local video handle wrapping bytes `[1,2,3]` and invokes
onProgress exactly three times: the request-sent message, the warm-up
message, and the complete-downloading message. -/
theorem claim_C2 :
    (generateVideo 0 { apiKey := "cred" }
        (mockDoneAI (some "https://example/video123")) mockFetchOK
        "A dog running on a beach" "data:image/png;base64,AAAA" "16:9").2
      = some (Except.ok { blobBytes := [1, 2, 3] }) ∧
    progressMsgs (generateVideo 0 { apiKey := "cred" }
        (mockDoneAI (some "https://example/video123")) mockFetchOK
        "A dog running on a beach" "data:image/png;base64,AAAA" "16:9").1
      = ["Sending request to the AI...",
         "AI is warming up its creative engines...",
         "Video generation complete! Downloading..."] := by
  refine ⟨by decide, by decide⟩

/-- Claim C2, counterexample to the claim as stated: in that scenario the
progress callback is invoked three times, not exactly twice — the code also
emits the warm-up message between submission and completion. -/
theorem claim_C2_counterexample :
    (generateVideo 0 { apiKey := "cred" }
        (mockDoneAI (some "https://example/video123")) mockFetchOK
        "A dog running on a beach" "data:image/png;base64,AAAA" "16:9").2
      = some (Except.ok { blobBytes := [1, 2, 3] }) ∧
    (progressMsgs (generateVideo 0 { apiKey := "cred" }
        (mockDoneAI (some "https://example/video123")) mockFetchOK
        "A dog running on a beach" "data:image/png;base64,AAAA" "16:9").1).length
      = 3 ∧
    ¬ (progressMsgs (generateVideo 0 { apiKey := "cred" }
        (mockDoneAI (some "https://example/video123")) mockFetchOK
        "A dog running on a beach" "data:image/png;base64,AAAA" "16:9").1).length
      = 2 := by
  refine ⟨by decide, by decide, by decide⟩

/-- Claim C3: whenever the submission response already has `done = true`,
and the asset reference is usable and its download succeeds, the call
returns a local video handle and the trace contains no `setTimeout`
suspension — the fixed polling delay is never invoked. -/
theorem claim_C3 (fuel : Nat) (env : Env) (ai : GenAIService)
    (fetch : String → FetchResponse)
    (prompt imageDataUrl aspectRatio link : String)
    (hdone : (ai.generateVideos (mkRequest prompt imageDataUrl aspectRatio)).done
      = true)
    (hlink : extractLink (ai.generateVideos (mkRequest prompt imageDataUrl aspectRatio))
      = some link)
    (hne : ¬ link = "")
    (hok : (fetch (link ++ "&key=" ++ env.apiKey)).ok = true) :
    (generateVideo fuel env ai fetch prompt imageDataUrl aspectRatio).2
      = some (Except.ok
          { blobBytes := (fetch (link ++ "&key=" ++ env.apiKey)).blobBytes }) ∧
    (generateVideo fuel env ai fetch prompt imageDataUrl aspectRatio).1.filter
      isSleep = [] := by
  have hpoll := runPoll_done ai.getVideosOperation fuel 0 _ hdone
  have hsome : (runPoll ai.getVideosOperation fuel 0
      (ai.generateVideos (mkRequest prompt imageDataUrl aspectRatio))).2
      = some (ai.generateVideos (mkRequest prompt imageDataUrl aspectRatio)) := by
    rw [hpoll]
  have heq := generateVideo_of_pollSome fuel env ai fetch
    prompt imageDataUrl aspectRatio _ hsome
  have hfin : finish env fetch
      (ai.generateVideos (mkRequest prompt imageDataUrl aspectRatio))
      = ([Event.fetchReq (link ++ "&key=" ++ env.apiKey)],
         Except.ok
           { blobBytes := (fetch (link ++ "&key=" ++ env.apiKey)).blobBytes }) := by
    unfold finish
    rw [hlink]
    simp [hne, hok]
  rw [heq, hfin, hpoll]
  refine ⟨rfl, by simp [isSleep]⟩

/-- Claim C3, witness: the theorem applied to the immediate-Done mock
scenario. -/
theorem claim_C3_witness :
    (generateVideo 0 { apiKey := "cred" }
        (mockDoneAI (some "https://example/video123")) mockFetchOK
        "p" "data:image/png;base64,AAAA" "16:9").2
      = some (Except.ok
          { blobBytes := (mockFetchOK
              ("https://example/video123" ++ "&key=" ++ "cred")).blobBytes }) ∧
    (generateVideo 0 { apiKey := "cred" }
        (mockDoneAI (some "https://example/video123")) mockFetchOK
        "p" "data:image/png;base64,AAAA" "16:9").1.filter isSleep = [] :=
  claim_C3 0 { apiKey := "cred" } (mockDoneAI (some "https://example/video123"))
    mockFetchOK "p" "data:image/png;base64,AAAA" "16:9" "https://example/video123"
    (by decide) (by decide) (by decide) (by decide)

/-- Claim C4: if the job stays Pending for `N` poll cycles before becoming
Done (and the fuel bound admits `N` iterations), then the progress callback
receives exactly the fixed request-sent and warm-up messages, the check
messages with strictly increasing counters 1..N, and the completion message;
the 10-second delay is awaited exactly `N` times; and each status re-fetch
passes the then-current operation object back to the service. -/
theorem claim_C4 (fuel N : Nat) (env : Env) (ai : GenAIService)
    (fetch : String → FetchResponse)
    (prompt imageDataUrl aspectRatio : String)
    (hpend : ∀ i, i < N →
      (opSeq ai.getVideosOperation
        (ai.generateVideos (mkRequest prompt imageDataUrl aspectRatio)) i).done
        = false)
    (hdone : (opSeq ai.getVideosOperation
        (ai.generateVideos (mkRequest prompt imageDataUrl aspectRatio)) N).done
        = true)
    (hfuel : N ≤ fuel) :
    progressMsgs (generateVideo fuel env ai fetch prompt imageDataUrl aspectRatio).1
      = "Sending request to the AI..."
        :: "AI is warming up its creative engines..."
        :: ((List.range N).map (fun i => checkMsg (i + 1))
            ++ ["Video generation complete! Downloading..."]) ∧
    ((generateVideo fuel env ai fetch prompt imageDataUrl aspectRatio).1.filter
        isSleep).length = N ∧
    pollReqOps (generateVideo fuel env ai fetch prompt imageDataUrl aspectRatio).1
      = (List.range N).map
          (opSeq ai.getVideosOperation
            (ai.generateVideos (mkRequest prompt imageDataUrl aspectRatio))) := by
  have hrp := runPoll_opSeq ai.getVideosOperation
    (ai.generateVideos (mkRequest prompt imageDataUrl aspectRatio)) N 0 fuel
    (fun i hi => by simpa using hpend i hi) (by simpa using hdone) hfuel
  rw [show opSeq ai.getVideosOperation
      (ai.generateVideos (mkRequest prompt imageDataUrl aspectRatio)) 0
      = ai.generateVideos (mkRequest prompt imageDataUrl aspectRatio) from rfl]
    at hrp
  have hsome : (runPoll ai.getVideosOperation fuel 0
      (ai.generateVideos (mkRequest prompt imageDataUrl aspectRatio))).2
      = some (opSeq ai.getVideosOperation
          (ai.generateVideos (mkRequest prompt imageDataUrl aspectRatio)) (0 + N)) := by
    rw [hrp]
  have heq := generateVideo_of_pollSome fuel env ai fetch
    prompt imageDataUrl aspectRatio _ hsome
  have htr : (generateVideo fuel env ai fetch prompt imageDataUrl aspectRatio).1
      = [Event.progress "Sending request to the AI...",
         Event.submit env.apiKey (mkRequest prompt imageDataUrl aspectRatio),
         Event.progress "AI is warming up its creative engines..."]
        ++ pollTrace ai.getVideosOperation
            (ai.generateVideos (mkRequest prompt imageDataUrl aspectRatio)) 0 N
        ++ (Event.progress "Video generation complete! Downloading..."
            :: (finish env fetch
                (opSeq ai.getVideosOperation
                  (ai.generateVideos (mkRequest prompt imageDataUrl aspectRatio))
                  (0 + N))).1) := by
    rw [heq, hrp]
  set opN := opSeq ai.getVideosOperation
    (ai.generateVideos (mkRequest prompt imageDataUrl aspectRatio)) (0 + N)
  refine ⟨?_, ?_, ?_⟩
  · have hp := pollTrace_progressMsgs ai.getVideosOperation
      (ai.generateVideos (mkRequest prompt imageDataUrl aspectRatio)) N 0
    have hf := finish_progressMsgs env fetch opN
    simp only [progressMsgs, List.filterMap_append, List.filterMap_cons] at hp hf ⊢
    simp [htr, progressMsgs, List.filterMap_append, hp, hf]
  · have hs := pollTrace_sleeps ai.getVideosOperation
      (ai.generateVideos (mkRequest prompt imageDataUrl aspectRatio)) N 0
    have hf := finish_sleeps env fetch opN
    simp [htr, List.filter_append, isSleep, hs, hf]
  · have hq := pollTrace_pollReqOps ai.getVideosOperation
      (ai.generateVideos (mkRequest prompt imageDataUrl aspectRatio)) N 0
    have hf := finish_pollReqOps env fetch opN
    simp only [pollReqOps, List.filterMap_append, List.filterMap_cons] at hq hf ⊢
    simp [htr, pollReqOps, List.filterMap_append, hq, hf]

/-- Claim C4, witness: the theorem applied to a service Pending for two poll
cycles, with fuel 5. -/
theorem claim_C4_witness :
    progressMsgs (generateVideo 5 { apiKey := "cred" } mockPendingAI mockFetchOK
        "p" "data:image/png;base64,AAAA" "16:9").1
      = "Sending request to the AI..."
        :: "AI is warming up its creative engines..."
        :: ((List.range 2).map (fun i => checkMsg (i + 1))
            ++ ["Video generation complete! Downloading..."]) ∧
    ((generateVideo 5 { apiKey := "cred" } mockPendingAI mockFetchOK
        "p" "data:image/png;base64,AAAA" "16:9").1.filter isSleep).length = 2 ∧
    pollReqOps (generateVideo 5 { apiKey := "cred" } mockPendingAI mockFetchOK
        "p" "data:image/png;base64,AAAA" "16:9").1
      = (List.range 2).map
          (opSeq mockPendingAI.getVideosOperation
            (mockPendingAI.generateVideos
              (mkRequest "p" "data:image/png;base64,AAAA" "16:9"))) :=
  claim_C4 5 2 { apiKey := "cred" } mockPendingAI mockFetchOK
    "p" "data:image/png;base64,AAAA" "16:9"
    (by decide) (by decide) (by decide)

/-- A fetch that always fails. -/
def mockFetchFail : String → FetchResponse := fun _ =>
  { ok := false, statusText := "Forbidden", blobBytes := [] }

/-- Claim C5: whenever the polling loop terminates with a Done operation
whose extracted download reference is absent or empty, the call fails with
the missing-asset error and no `fetch` request appears in the trace. -/
theorem claim_C5 (fuel : Nat) (env : Env) (ai : GenAIService)
    (fetch : String → FetchResponse)
    (prompt imageDataUrl aspectRatio : String) (opF : Operation)
    (hterm : (runPoll ai.getVideosOperation fuel 0
        (ai.generateVideos (mkRequest prompt imageDataUrl aspectRatio))).2
      = some opF)
    (hbad : extractLink opF = none ∨ extractLink opF = some "") :
    (generateVideo fuel env ai fetch prompt imageDataUrl aspectRatio).2
      = some (Except.error GenError.missingAsset) ∧
    fetchUrls (generateVideo fuel env ai fetch prompt imageDataUrl aspectRatio).1
      = [] := by
  have heq := generateVideo_of_pollSome fuel env ai fetch
    prompt imageDataUrl aspectRatio opF hterm
  have hfin : finish env fetch opF = ([], Except.error GenError.missingAsset) := by
    unfold finish
    rcases hbad with h | h <;> rw [h] <;> simp
  have h1 := runPoll_fetchUrls ai.getVideosOperation fuel 0
    (ai.generateVideos (mkRequest prompt imageDataUrl aspectRatio))
  constructor
  · rw [heq, hfin]
  · simp only [fetchUrls, List.filterMap_append, List.filterMap_cons] at h1 ⊢
    simp [heq, hfin, h1]

/-- Claim C5, witness: the theorem applied to a service that is Done at once
but reports no uri. -/
theorem claim_C5_witness :
    (generateVideo 0 { apiKey := "cred" } (mockDoneAI none) mockFetchOK
        "p" "data:image/png;base64,AAAA" "16:9").2
      = some (Except.error GenError.missingAsset) ∧
    fetchUrls (generateVideo 0 { apiKey := "cred" } (mockDoneAI none) mockFetchOK
        "p" "data:image/png;base64,AAAA" "16:9").1 = [] :=
  claim_C5 0 { apiKey := "cred" } (mockDoneAI none) mockFetchOK
    "p" "data:image/png;base64,AAAA" "16:9" (mockDoneOp none)
    (by decide) (Or.inl (by decide))

/-- Claim C6: whenever the polling loop terminates with a Done operation
carrying a usable download reference but the download fetch reports a
non-success status, the call fails with the download error (carrying the
status text) and no local video handle is produced. -/
theorem claim_C6 (fuel : Nat) (env : Env) (ai : GenAIService)
    (fetch : String → FetchResponse)
    (prompt imageDataUrl aspectRatio link : String) (opF : Operation)
    (hterm : (runPoll ai.getVideosOperation fuel 0
        (ai.generateVideos (mkRequest prompt imageDataUrl aspectRatio))).2
      = some opF)
    (hlink : extractLink opF = some link)
    (hne : ¬ link = "")
    (hfail : (fetch (link ++ "&key=" ++ env.apiKey)).ok = false) :
    (generateVideo fuel env ai fetch prompt imageDataUrl aspectRatio).2
      = some (Except.error (GenError.download
          (fetch (link ++ "&key=" ++ env.apiKey)).statusText)) ∧
    ¬ ∃ h : LocalVideoHandle,
        (generateVideo fuel env ai fetch prompt imageDataUrl aspectRatio).2
          = some (Except.ok h) := by
  have heq := generateVideo_of_pollSome fuel env ai fetch
    prompt imageDataUrl aspectRatio opF hterm
  have hfin : finish env fetch opF
      = ([Event.fetchReq (link ++ "&key=" ++ env.apiKey)],
         Except.error (GenError.download
           (fetch (link ++ "&key=" ++ env.apiKey)).statusText)) := by
    unfold finish
    rw [hlink]
    simp [hne, hfail]
  have hres : (generateVideo fuel env ai fetch prompt imageDataUrl aspectRatio).2
      = some (Except.error (GenError.download
          (fetch (link ++ "&key=" ++ env.apiKey)).statusText)) := by
    rw [heq, hfin]
  refine ⟨hres, ?_⟩
  rintro ⟨h, hh⟩
  rw [hres] at hh
  exact absurd (Option.some.inj hh) (by simp)

/-- Claim C6, witness: the theorem applied to an immediate-Done service with
an always-failing fetch. -/
theorem claim_C6_witness :
    (generateVideo 0 { apiKey := "cred" }
        (mockDoneAI (some "https://example/video123")) mockFetchFail
        "p" "data:image/png;base64,AAAA" "16:9").2
      = some (Except.error (GenError.download
          (mockFetchFail ("https://example/video123" ++ "&key=" ++ "cred")).statusText)) ∧
    ¬ ∃ h : LocalVideoHandle,
        (generateVideo 0 { apiKey := "cred" }
            (mockDoneAI (some "https://example/video123")) mockFetchFail
            "p" "data:image/png;base64,AAAA" "16:9").2
          = some (Except.ok h) :=
  claim_C6 0 { apiKey := "cred" } (mockDoneAI (some "https://example/video123"))
    mockFetchFail "p" "data:image/png;base64,AAAA" "16:9"
    "https://example/video123" (mockDoneOp (some "https://example/video123"))
    (by decide) (by decide) (by decide) (by decide)

/-- Claim C7: each invocation reads the credential from the environment at
call time — the one submission event of the trace carries exactly the
API key current at that invocation, so two invocations seeing different
current keys observe different keys (nothing is cached across calls). -/
theorem claim_C7 (fuel fuel2 : Nat) (env env2 : Env) (ai ai2 : GenAIService)
    (fetch fetch2 : String → FetchResponse)
    (prompt prompt2 imageDataUrl imageDataUrl2 aspectRatio aspectRatio2 : String) :
    submitKeys (generateVideo fuel env ai fetch
        prompt imageDataUrl aspectRatio).1 = [env.apiKey] ∧
    (¬ env.apiKey = env2.apiKey →
      ¬ submitKeys (generateVideo fuel env ai fetch
            prompt imageDataUrl aspectRatio).1
        = submitKeys (generateVideo fuel2 env2 ai2 fetch2
            prompt2 imageDataUrl2 aspectRatio2).1) := by
  refine ⟨generateVideo_submitKeys fuel env ai fetch prompt imageDataUrl aspectRatio,
    fun hne heq => hne ?_⟩
  rw [generateVideo_submitKeys, generateVideo_submitKeys] at heq
  exact List.singleton_injective heq

/-- Claim C7, witness: two successive invocations under different current
keys observe the respective keys. -/
theorem claim_C7_witness :
    submitKeys (generateVideo 0 { apiKey := "cred" }
        (mockDoneAI (some "https://example/video123")) mockFetchOK
        "p" "data:image/png;base64,AAAA" "16:9").1 = ["cred"] ∧
    ¬ submitKeys (generateVideo 0 { apiKey := "cred" }
          (mockDoneAI (some "https://example/video123")) mockFetchOK
          "p" "data:image/png;base64,AAAA" "16:9").1
      = submitKeys (generateVideo 0 { apiKey := "rotated" }
          (mockDoneAI (some "https://example/video123")) mockFetchOK
          "p" "data:image/png;base64,AAAA" "16:9").1 :=
  ⟨(claim_C7 0 0 { apiKey := "cred" } { apiKey := "rotated" }
      (mockDoneAI (some "https://example/video123"))
      (mockDoneAI (some "https://example/video123")) mockFetchOK mockFetchOK
      "p" "p" "data:image/png;base64,AAAA" "data:image/png;base64,AAAA"
      "16:9" "16:9").1,
   (claim_C7 0 0 { apiKey := "cred" } { apiKey := "rotated" }
      (mockDoneAI (some "https://example/video123"))
      (mockDoneAI (some "https://example/video123")) mockFetchOK mockFetchOK
      "p" "p" "data:image/png;base64,AAAA" "data:image/png;base64,AAAA"
      "16:9" "16:9").2 (by decide)⟩

/-- Claim C8: on every successful path the binary is fetched by exactly one
fetch request whose URL is the extracted download reference followed by the
credential query parameter, and the returned handle wraps that fetch
response body. -/
theorem claim_C8 (fuel : Nat) (env : Env) (ai : GenAIService)
    (fetch : String → FetchResponse)
    (prompt imageDataUrl aspectRatio link : String) (opF : Operation)
    (hterm : (runPoll ai.getVideosOperation fuel 0
        (ai.generateVideos (mkRequest prompt imageDataUrl aspectRatio))).2
      = some opF)
    (hlink : extractLink opF = some link)
    (hne : ¬ link = "")
    (hok : (fetch (link ++ "&key=" ++ env.apiKey)).ok = true) :
    fetchUrls (generateVideo fuel env ai fetch prompt imageDataUrl aspectRatio).1
      = [link ++ "&key=" ++ env.apiKey] ∧
    (generateVideo fuel env ai fetch prompt imageDataUrl aspectRatio).2
      = some (Except.ok
          { blobBytes := (fetch (link ++ "&key=" ++ env.apiKey)).blobBytes }) := by
  have heq := generateVideo_of_pollSome fuel env ai fetch
    prompt imageDataUrl aspectRatio opF hterm
  have hfin : finish env fetch opF
      = ([Event.fetchReq (link ++ "&key=" ++ env.apiKey)],
         Except.ok
           { blobBytes := (fetch (link ++ "&key=" ++ env.apiKey)).blobBytes }) := by
    unfold finish
    rw [hlink]
    simp [hne, hok]
  have h1 := runPoll_fetchUrls ai.getVideosOperation fuel 0
    (ai.generateVideos (mkRequest prompt imageDataUrl aspectRatio))
  constructor
  · simp only [fetchUrls, List.filterMap_append, List.filterMap_cons] at h1 ⊢
    simp [heq, hfin, h1]
  · rw [heq, hfin]

/-- Claim C8, witness: the theorem applied to the immediate-Done mock
scenario; the one fetch URL is the uri followed by the key parameter. -/
theorem claim_C8_witness :
    fetchUrls (generateVideo 0 { apiKey := "cred" }
        (mockDoneAI (some "https://example/video123")) mockFetchOK
        "p" "data:image/png;base64,AAAA" "16:9").1
      = ["https://example/video123" ++ "&key=" ++ "cred"] ∧
    (generateVideo 0 { apiKey := "cred" }
        (mockDoneAI (some "https://example/video123")) mockFetchOK
        "p" "data:image/png;base64,AAAA" "16:9").2
      = some (Except.ok
          { blobBytes := (mockFetchOK
              ("https://example/video123" ++ "&key=" ++ "cred")).blobBytes }) :=
  claim_C8 0 { apiKey := "cred" } (mockDoneAI (some "https://example/video123"))
    mockFetchOK "p" "data:image/png;base64,AAAA" "16:9"
    "https://example/video123" (mockDoneOp (some "https://example/video123"))
    (by decide) (by decide) (by decide) (by decide)

/-! ## The UI generate handler (App component) -/

/-- The uploaded image state (`ImageFile`): `id`, `dataUrl`, `name`. -/
structure UIImageFile where
  id : String
  dataUrl : String
  name : String
deriving DecidableEq

/-- The component state read and written by `handleGenerate`. -/
structure UIState where
  image : Option UIImageFile
  prompt : String
  aspectRatio : String
  error : Option String
  videoUrl : Option String
  isLoading : Bool
deriving DecidableEq

/-- The one external call `handleGenerate` can issue: invoking the
orchestrator with a final prompt, the image data URL, and the aspect
ratio. -/
inductive UIAction where
  | callGenerateVideo (prompt imageDataUrl aspectRatio : String) : UIAction
deriving DecidableEq

/-- Embedding of the synchronous prefix of `handleGenerate` (App), up to and
including the decision to invoke `generateVideo`: the missing-image guard
(`if (!image) { setError(...); return; }`), the state resets, the prompt
defaulting `prompt || RANDOM_PROMPTS[...]` (the random pick is the
`randomPrompt` oracle; the empty string is falsy), and the orchestrator
call.  The returned action list records whether `generateVideo` was
invoked; the handling of its eventual result is outside this step. -/
def handleGenerate (st : UIState) (randomPrompt : String) :
    UIState × List UIAction :=
  match st.image with
  | none =>
    ({ st with error := some "Please upload an image to generate a video." }, [])
  | some img =>
    let st1 := { st with error := none, videoUrl := none, isLoading := true }
    let finalPrompt := if st.prompt = "" then randomPrompt else st.prompt
    let st2 := if st.prompt = "" then { st1 with prompt := finalPrompt } else st1
    (st2, [UIAction.callGenerateVideo finalPrompt img.dataUrl st.aspectRatio])

/-- Claim C10: with no seed image selected, the handler sets the
user-facing error message and issues no orchestrator call; conversely,
any issued orchestrator call implies a seed image was present and supplies
exactly its data URL. -/
theorem claim_C10 (st : UIState) (randomPrompt : String) :
    (st.image = none →
      (handleGenerate st randomPrompt).1.error
        = some "Please upload an image to generate a video." ∧
      (handleGenerate st randomPrompt).2 = []) ∧
    (∀ p u a, UIAction.callGenerateVideo p u a ∈ (handleGenerate st randomPrompt).2 →
      ∃ img, st.image = some img ∧ u = img.dataUrl) := by
  constructor
  · intro h
    simp [handleGenerate, h]
  · intro p u a hmem
    cases himg : st.image with
    | none => rw [handleGenerate, himg] at hmem; simp at hmem
    | some img =>
      refine ⟨img, rfl, ?_⟩
      rw [handleGenerate, himg] at hmem
      simp at hmem
      exact hmem.2.1

/-- Claim C10, witness: the handler applied to a state with no image, and to
a state with an image. -/
theorem claim_C10_witness :
    ((handleGenerate
        { image := none, prompt := "", aspectRatio := "16:9",
          error := none, videoUrl := none, isLoading := false } "rp").1.error
      = some "Please upload an image to generate a video." ∧
     (handleGenerate
        { image := none, prompt := "", aspectRatio := "16:9",
          error := none, videoUrl := none, isLoading := false } "rp").2 = []) ∧
    (∃ img,
      ({ image := some { id := "1", dataUrl := "data:image/png;base64,AAAA",
                         name := "a.png" },
         prompt := "", aspectRatio := "16:9", error := none,
         videoUrl := none, isLoading := false } : UIState).image = some img ∧
      "data:image/png;base64,AAAA" = img.dataUrl) :=
  ⟨(claim_C10
      { image := none, prompt := "", aspectRatio := "16:9",
        error := none, videoUrl := none, isLoading := false } "rp").1 rfl,
   (claim_C10
      { image := some { id := "1", dataUrl := "data:image/png;base64,AAAA",
                        name := "a.png" },
        prompt := "", aspectRatio := "16:9", error := none,
        videoUrl := none, isLoading := false } "rp").2
     "rp" "data:image/png;base64,AAAA" "16:9" (by decide)⟩

end RoboVideo
